import Mathlib

/-!
Shallow embedding of `src/app.py` (a Streamlit bookkeeping app over a
two-table SQLite store) and proofs about its cost, profit and CRUD logic.

The SQLite tables `purchases` and `sales` are modelled as Lean lists of
records; the numeric `REAL` columns are modelled as rationals (the usual
exact idealization of the float arithmetic), `INTEGER` columns as `ℤ`/`ℕ`,
and the `TEXT` date column as a `String` compared lexicographically on its
characters, which is how SQLite compares `TEXT` operands in
`date <= ?` / `date >= ?` / `date < ?` (on ISO-8601 dates this is
chronological order).  The one place where float behaviour matters — the
pandas expression computing `margem_%`, where a division by zero produces an
IEEE infinity rather than a missing value — is modelled by the dedicated
type `PdFloat` that distinguishes finite values, the two infinities and NaN.
-/

namespace App

/-- A row of the `purchases` table (`init_db` in `src/app.py`):
`id INTEGER PRIMARY KEY`, `date TEXT`, `sku TEXT`, `name TEXT`,
`unit_cost REAL`, `quantity INTEGER`. -/
structure PurchaseRecord where
  id : Nat
  date : String
  sku : String
  name : String
  unit_cost : ℚ
  quantity : ℤ
deriving DecidableEq, Repr

/-- A row of the `sales` table (`init_db` in `src/app.py`):
additionally carries `unit_price REAL` and `marketplace TEXT`. -/
structure SaleRecord where
  id : Nat
  date : String
  sku : String
  name : String
  unit_price : ℚ
  quantity : ℤ
  marketplace : String
deriving DecidableEq, Repr

/-- SQLite `TEXT` comparison `a <= b`: lexicographic on the characters. -/
def dateLe (a b : String) : Prop := a.data ≤ b.data

instance (a b : String) : Decidable (dateLe a b) :=
  inferInstanceAs (Decidable (a.data ≤ b.data))

/-- SQLite `TEXT` comparison `a < b`: lexicographic on the characters. -/
def dateLt (a b : String) : Prop := a.data < b.data

instance (a b : String) : Decidable (dateLt a b) :=
  inferInstanceAs (Decidable (a.data < b.data))

/-- The rows selected by `WHERE sku = ? AND date <= ?` in
`get_avg_cost_until` (`src/app.py` lines 76-83). -/
def qualifying (purchases : List PurchaseRecord) (sku until_iso : String) :
    List PurchaseRecord :=
  purchases.filter (fun r => decide (r.sku = sku ∧ dateLe r.date until_iso))

/-- The SQL `SUM(quantity)` over a row list, taken in `ℚ` (SQLite widens the
integer sum when it is divided by `* 1.0 / ...`). -/
def qsum (P : List PurchaseRecord) : ℚ :=
  (P.map (fun r => (r.quantity : ℚ))).sum

/-- The SQL `SUM(unit_cost * quantity)` over a row list. -/
def csum (P : List PurchaseRecord) : ℚ :=
  (P.map (fun r => r.unit_cost * (r.quantity : ℚ))).sum

/-- Function `get_avg_cost_until` (`src/app.py` lines 73-87): runs
`SELECT SUM(unit_cost * quantity) * 1.0 / NULLIF(SUM(quantity), 0)` over the
qualifying rows and returns `None` when the result is SQL `NULL`.  `SUM`
over an empty row set is `NULL`, and `NULLIF(SUM(quantity), 0)` makes the
divisor `NULL` when the quantities sum to zero; in both cases the whole
expression is `NULL`, hence `None`. -/
def get_avg_cost_until (purchases : List PurchaseRecord)
    (sku until_iso : String) : Option ℚ :=
  let P := qualifying purchases sku until_iso
  if P = [] ∨ qsum P = 0 then none
  else some (csum P / qsum P)

/-! ## Profit tab (aba3) per-row derivation, `src/app.py` lines 252-271 -/

/-- Column `custo_medio_unit`: `get_avg_cost_until(r["sku"], r["data"])`
with the `avg if avg is not None else 0.0` fallback (lines 253-257). -/
def custo_medio_unit (purchases : List PurchaseRecord) (s : SaleRecord) : ℚ :=
  (get_avg_cost_until purchases s.sku s.date).getD 0

/-- Column `taxa_percent_unit`: `unit_price * 0.20` (line 263). -/
def taxa_percent_unit (s : SaleRecord) : ℚ := s.unit_price * 0.20

/-- Column `taxa_fixa_unit`: the constant `4.0` (line 264). -/
def taxa_fixa_unit (_s : SaleRecord) : ℚ := 4.0

/-- Column `imposto_unit`: `unit_price * 0.08` (line 265). -/
def imposto_unit (s : SaleRecord) : ℚ := s.unit_price * 0.08

/-- Column `lucro_unit` (line 268):
`unit_price - custo_medio_unit - taxa_percent_unit - taxa_fixa_unit - imposto_unit`. -/
def lucro_unit (purchases : List PurchaseRecord) (s : SaleRecord) : ℚ :=
  s.unit_price - custo_medio_unit purchases s - taxa_percent_unit s
    - taxa_fixa_unit s - imposto_unit s

/-- Column `faturamento`: `unit_price * quantity` (line 269). -/
def faturamento (s : SaleRecord) : ℚ := s.unit_price * s.quantity

/-- Column `lucro_total`: `lucro_unit * quantity` (line 270). -/
def lucro_total (purchases : List PurchaseRecord) (s : SaleRecord) : ℚ :=
  lucro_unit purchases s * s.quantity

/-- A pandas float64 cell: a finite value, one of the IEEE infinities, or
NaN.  Needed only for the `margem_%` column, the one expression of the
program where a division by zero can occur. -/
inductive PdFloat where
  | fin (q : ℚ)
  | posInf
  | negInf
  | nan
deriving DecidableEq, Repr

/-- IEEE/numpy float division as pandas performs it on float64 columns:
no exception is raised; `a / 0` is `+inf`, `-inf` or `NaN` according to the
sign of `a`. -/
def pdDiv (a b : ℚ) : PdFloat :=
  if b = 0 then
    if 0 < a then PdFloat.posInf
    else if a < 0 then PdFloat.negInf
    else PdFloat.nan
  else PdFloat.fin (a / b)

/-- The rewrite `.replace([pd.NA, pd.NaT], 0)` (line 271): rewrites missing (NA-like)
cells to `0`; infinities are ordinary float values and are left alone. -/
def pdReplaceNA : PdFloat → PdFloat
  | PdFloat.nan => PdFloat.fin 0
  | v => v

/-- Multiplication of a float64 cell by the positive constant `100`. -/
def pdMul100 : PdFloat → PdFloat
  | PdFloat.fin q => PdFloat.fin (q * 100)
  | PdFloat.posInf => PdFloat.posInf
  | PdFloat.negInf => PdFloat.negInf
  | PdFloat.nan => PdFloat.nan

/-- Column `margem_%` (line 271):
`(df["lucro_unit"] / df["unit_price"]).replace([pd.NA, pd.NaT], 0) * 100`. -/
def margem_percent (purchases : List PurchaseRecord) (s : SaleRecord) :
    PdFloat :=
  pdMul100 (pdReplaceNA (pdDiv (lucro_unit purchases s) s.unit_price))

/-! ## Profit tab sales query, `src/app.py` lines 235-247 -/

/-- The two SQL queries loading the report's sales: when the selectbox is
`"Todos"`, `WHERE date >= ? AND date < ?`; otherwise the same range plus
`AND marketplace = ?`. -/
def consulta_vendas (sales : List SaleRecord)
    (start_iso end_iso mfilter : String) : List SaleRecord :=
  if mfilter = "Todos" then
    sales.filter (fun s => decide (dateLe start_iso s.date ∧ dateLt s.date end_iso))
  else
    sales.filter (fun s =>
      decide (dateLe start_iso s.date ∧ dateLt s.date end_iso ∧
        s.marketplace = mfilter))

/-! ## Profit tab aggregate totals, `src/app.py` lines 307-313 -/

/-- Aggregate `total_faturamento = df["faturamento"].sum()`. -/
def total_faturamento (rows : List SaleRecord) : ℚ :=
  (rows.map faturamento).sum

/-- Aggregate `total_custo = (df["custo_medio_unit"] * df["quantity"]).sum()`. -/
def total_custo (purchases : List PurchaseRecord) (rows : List SaleRecord) : ℚ :=
  (rows.map (fun s => custo_medio_unit purchases s * s.quantity)).sum

/-- Aggregate `total_taxa_percent = (df["taxa_percent_unit"] * df["quantity"]).sum()`. -/
def total_taxa_percent (rows : List SaleRecord) : ℚ :=
  (rows.map (fun s => taxa_percent_unit s * s.quantity)).sum

/-- Aggregate `total_taxa_fixa = (df["taxa_fixa_unit"] * df["quantity"]).sum()`. -/
def total_taxa_fixa (rows : List SaleRecord) : ℚ :=
  (rows.map (fun s => taxa_fixa_unit s * s.quantity)).sum

/-- Aggregate `total_imposto = (df["imposto_unit"] * df["quantity"]).sum()`. -/
def total_imposto (rows : List SaleRecord) : ℚ :=
  (rows.map (fun s => imposto_unit s * s.quantity)).sum

/-- Aggregate `total_lucro = df["lucro_total"].sum()`. -/
def total_lucro (purchases : List PurchaseRecord) (rows : List SaleRecord) : ℚ :=
  (rows.map (lucro_total purchases)).sum

/-! ## Form submission (aba1 lines 104-125, aba2 lines 166-188) -/

/-- Python `str.strip()`: drops leading and trailing whitespace. -/
def pyStrip (s : String) : String :=
  String.mk
    (((s.data.dropWhile Char.isWhitespace).reverse.dropWhile
        Char.isWhitespace).reverse)

/-- Outcome of a form submission: `st.warning(msg)` rejection, or
`st.success(...)` after the `INSERT`. -/
inductive FormOutcome where
  | rejected (msg : String)
  | accepted
deriving DecidableEq, Repr

/-- The purchase form handler (`src/app.py` lines 104-125).  The widgets
constrain their values before the handler runs: `st.number_input` with
`min_value=0.0` clamps the cost to `max custo 0`, and `min_value=1` clamps
the quantity to `max qtd 1`.  The handler then checks `not sku` (emptiness
of the raw text) and `custo_unit <= 0`, and otherwise inserts
`(iso(d), sku.strip(), nome.strip(), float(custo_unit), int(qtd))`. -/
def submit_compra (store : List PurchaseRecord) (newId : Nat)
    (d sku nome : String) (custo_input : ℚ) (qtd_input : ℤ) :
    FormOutcome × List PurchaseRecord :=
  let custo_unit := max custo_input 0
  let qtd := max qtd_input 1
  if sku = "" then (FormOutcome.rejected "Informe o SKU/Código.", store)
  else if custo_unit ≤ 0 then
    (FormOutcome.rejected "Informe o custo unitário.", store)
  else
    (FormOutcome.accepted,
      store ++ [⟨newId, d, pyStrip sku, pyStrip nome, custo_unit, qtd⟩])

/-- The sale form handler (`src/app.py` lines 166-188), same shape with
`preco_unit` in place of `custo_unit` plus the marketplace selectbox. -/
def submit_venda (store : List SaleRecord) (newId : Nat)
    (d sku nome : String) (preco_input : ℚ) (qtd_input : ℤ)
    (market : String) : FormOutcome × List SaleRecord :=
  let preco_unit := max preco_input 0
  let qtd := max qtd_input 1
  if sku = "" then (FormOutcome.rejected "Informe o SKU/Código.", store)
  else if preco_unit ≤ 0 then
    (FormOutcome.rejected "Informe o preço de venda.", store)
  else
    (FormOutcome.accepted,
      store ++ [⟨newId, d, pyStrip sku, pyStrip nome, preco_unit, qtd, market⟩])

/-! ## Deletion (aba1 lines 152-159, aba2 lines 209-216) -/

/-- Statement `DELETE FROM purchases WHERE id=?` (line 156). -/
def delete_purchase (store : List PurchaseRecord) (del_id : Nat) :
    List PurchaseRecord :=
  store.filter (fun r => decide (¬ r.id = del_id))

/-- Statement `DELETE FROM sales WHERE id=?` (line 213). -/
def delete_sale (store : List SaleRecord) (del_id : Nat) :
    List SaleRecord :=
  store.filter (fun r => decide (¬ r.id = del_id))

/-- A form outcome that is a rejection carrying a non-empty
(human-readable) message. -/
def isRejectedWithReason : FormOutcome → Prop
  | FormOutcome.rejected msg => msg ≠ ""
  | FormOutcome.accepted => False

/-! ## Concrete stores used to instantiate the theorems -/

/-- Two January purchases of SKU `A`: 2 units at 5.00, then 2 units at
8.00, so the weighted average up to 2024-01-04 is 26/4 = 13/2. -/
def comprasDemo : List PurchaseRecord :=
  [⟨1, "2024-01-03", "A", "x", 5, 2⟩, ⟨2, "2024-01-04", "A", "x", 8, 2⟩]

/-- One September purchase giving SKU `SKU1` a 40.00 cost basis. -/
def compras9 : List PurchaseRecord :=
  [⟨1, "2024-09-01", "SKU1", "", 40, 1⟩]

/-- The §8 example sale: unit price 100, quantity 1. -/
def venda9 : SaleRecord :=
  ⟨1, "2024-09-15", "SKU1", "", 100, 1, "Shopee"⟩

/-- A sale with unit price zero (expressible in the `sales` table, though
the sale form itself rejects a zero price). -/
def venda_preco_zero : SaleRecord :=
  ⟨1, "2024-09-05", "X", "", 0, 1, "Shopee"⟩

/-- Two September sales on different marketplaces. -/
def vendasDemo : List SaleRecord :=
  [⟨1, "2024-09-10", "A", "", 50, 1, "Shopee"⟩,
   ⟨2, "2024-09-11", "A", "", 60, 1, "Mercado Livre"⟩]

/-! ## Helper lemmas -/

theorem mem_qualifying {purchases : List PurchaseRecord} {sku d : String}
    {r : PurchaseRecord} :
    r ∈ qualifying purchases sku d ↔
      r ∈ purchases ∧ r.sku = sku ∧ dateLe r.date d := by
  simp [qualifying, List.mem_filter, and_assoc]

theorem qualifying_append (l₁ l₂ : List PurchaseRecord) (sku d : String) :
    qualifying (l₁ ++ l₂) sku d = qualifying l₁ sku d ++ qualifying l₂ sku d := by
  simp [qualifying, List.filter_append]

theorem qsum_append (P Q : List PurchaseRecord) :
    qsum (P ++ Q) = qsum P + qsum Q := by
  simp [qsum]

theorem csum_append (P Q : List PurchaseRecord) :
    csum (P ++ Q) = csum P + csum Q := by
  simp [csum]

/-! ## C1 -/

/-- C1: over every purchase store, product code and reference date,
`get_avg_cost_until` returns `None` exactly when the qualifying set `P`
(purchases with that code dated on or before the reference date) is empty
or has total quantity zero; purchases dated exactly on the reference date
belong to `P` (inclusive boundary); and any defined result equals
`(Σ unit_cost_i * quantity_i) / (Σ quantity_i)` over `P`. -/
theorem get_avg_cost_until_spec (purchases : List PurchaseRecord)
    (sku ref : String) :
    (get_avg_cost_until purchases sku ref = none ↔
      qualifying purchases sku ref = [] ∨
        ((qualifying purchases sku ref).map (fun r => (r.quantity : ℚ))).sum = 0)
    ∧ (∀ r ∈ purchases, r.sku = sku → r.date = ref →
        r ∈ qualifying purchases sku ref)
    ∧ (∀ v, get_avg_cost_until purchases sku ref = some v →
        v = ((qualifying purchases sku ref).map
              (fun r => r.unit_cost * (r.quantity : ℚ))).sum /
            ((qualifying purchases sku ref).map (fun r => (r.quantity : ℚ))).sum) := by
  refine ⟨?_, ?_, ?_⟩
  · rw [get_avg_cost_until]
    split_ifs with h
    · simpa [qsum] using h
    · simp only [qsum] at h
      simp [h]
  · intro r hr hsku hdate
    exact mem_qualifying.mpr ⟨hr, hsku, by simp [dateLe, hdate]⟩
  · intro v hv
    rw [get_avg_cost_until] at hv
    split_ifs at hv with h
    simp only [Option.some.injEq] at hv
    rw [← hv]
    rfl

/-- C1 witness: on `comprasDemo` the purchase dated exactly on the
reference date qualifies, and the defined average is the weighted mean
13/2. -/
theorem get_avg_cost_until_spec_witness :
    ((⟨2, "2024-01-04", "A", "x", 8, 2⟩ : PurchaseRecord) ∈
      qualifying comprasDemo "A" "2024-01-04")
    ∧ (13/2 : ℚ) =
        ((qualifying comprasDemo "A" "2024-01-04").map
            (fun r => r.unit_cost * (r.quantity : ℚ))).sum /
          ((qualifying comprasDemo "A" "2024-01-04").map
            (fun r => (r.quantity : ℚ))).sum :=
  ⟨(get_avg_cost_until_spec comprasDemo "A" "2024-01-04").2.1 _ (by decide)
      rfl rfl,
   (get_avg_cost_until_spec comprasDemo "A" "2024-01-04").2.2 (13/2) (by
      rw [get_avg_cost_until, show qualifying comprasDemo "A" "2024-01-04"
        = comprasDemo from rfl]
      rw [if_neg]
      · norm_num [comprasDemo, qsum, csum]
      · push_neg
        exact ⟨by simp [comprasDemo], by norm_num [comprasDemo, qsum]⟩)⟩

end App

namespace App

/-! ## C2 -/

/-- Per-sale decomposition of `lucro_total` into the per-unit columns
scaled by quantity. -/
theorem lucro_total_decomposition (purchases : List PurchaseRecord)
    (s : SaleRecord) :
    lucro_total purchases s =
      faturamento s - custo_medio_unit purchases s * s.quantity
        - taxa_percent_unit s * s.quantity - taxa_fixa_unit s * s.quantity
        - imposto_unit s * s.quantity := by
  simp only [lucro_total, lucro_unit, faturamento]
  ring

/-- The aggregation identity over any sale list, no emptiness needed. -/
theorem totals_identity (purchases : List PurchaseRecord)
    (rows : List SaleRecord) :
    total_lucro purchases rows =
      total_faturamento rows - total_custo purchases rows
        - total_taxa_percent rows - total_taxa_fixa rows
        - total_imposto rows := by
  induction rows with
  | nil =>
    simp [total_lucro, total_faturamento, total_custo, total_taxa_percent,
      total_taxa_fixa, total_imposto]
  | cons s t ih =>
    simp only [total_lucro, total_faturamento, total_custo,
      total_taxa_percent, total_taxa_fixa, total_imposto, List.map_cons,
      List.sum_cons] at ih ⊢
    rw [lucro_total_decomposition, ih]
    ring

/-- C2: for every purchase store and non-empty filtered sale set, the
aggregated report totals satisfy
`totalProfit = totalRevenue - totalCost - totalFeePercent - totalFeeFixed - totalTax`,
exactly, where each total sums the per-unit column times quantity. -/
theorem profit_totals_invariant (purchases : List PurchaseRecord)
    (rows : List SaleRecord) (_hne : rows ≠ []) :
    total_lucro purchases rows =
      total_faturamento rows - total_custo purchases rows
        - total_taxa_percent rows - total_taxa_fixa rows
        - total_imposto rows :=
  totals_identity purchases rows

/-- C2 witness: the invariant at the one-sale set `[venda9]`. -/
theorem profit_totals_invariant_witness :
    total_lucro [] [venda9] =
      total_faturamento [venda9] - total_custo [] [venda9]
        - total_taxa_percent [venda9] - total_taxa_fixa [venda9]
        - total_imposto [venda9] :=
  profit_totals_invariant [] [venda9] (by simp)

/-! ## C4 -/

/-- C4: for every sale whose product code has no qualifying purchase
(`get_avg_cost_until` returns `None`), the profit rows use a cost of `0.0`
and `lucro_unit = unit_price - taxa_percent_unit - taxa_fixa_unit -
imposto_unit` with no cost subtracted; no error is raised (the computation
is total). -/
theorem missing_cost_fallback (purchases : List PurchaseRecord)
    (s : SaleRecord)
    (h : get_avg_cost_until purchases s.sku s.date = none) :
    custo_medio_unit purchases s = 0 ∧
    lucro_unit purchases s =
      s.unit_price - taxa_percent_unit s - taxa_fixa_unit s
        - imposto_unit s := by
  have hc : custo_medio_unit purchases s = 0 := by
    rw [custo_medio_unit, h]
    rfl
  refine ⟨hc, ?_⟩
  rw [lucro_unit, hc]
  ring

/-- C4 witness: `venda9` against an empty purchase store. -/
theorem missing_cost_fallback_witness :
    custo_medio_unit [] venda9 = 0 ∧
    lucro_unit [] venda9 =
      venda9.unit_price - taxa_percent_unit venda9 - taxa_fixa_unit venda9
        - imposto_unit venda9 :=
  missing_cost_fallback [] venda9 rfl

/-! ## C9 -/

/-- C9: for the sale with unit price 100, quantity 1 and cost basis 40
(`compras9`/`venda9`), the derived columns are exactly: 20% marketplace
fee = 20.00, fixed fee = 4.00, 8% tax = 8.00, unit profit = 28.00 and
margin = 28.00%. -/
theorem deduction_constants_example :
    custo_medio_unit compras9 venda9 = 40 ∧
    taxa_percent_unit venda9 = 20 ∧
    taxa_fixa_unit venda9 = 4 ∧
    imposto_unit venda9 = 8 ∧
    lucro_unit compras9 venda9 = 28 ∧
    margem_percent compras9 venda9 = PdFloat.fin 28 := by
  have havg : get_avg_cost_until compras9 venda9.sku venda9.date = some 40 := by
    rw [get_avg_cost_until,
      show qualifying compras9 venda9.sku venda9.date = compras9 from rfl,
      if_neg]
    · norm_num [compras9, csum, qsum]
    · push_neg
      exact ⟨by simp [compras9], by norm_num [compras9, qsum]⟩
  have hc : custo_medio_unit compras9 venda9 = 40 := by
    rw [custo_medio_unit, havg]
    rfl
  have hl : lucro_unit compras9 venda9 = 28 := by
    rw [lucro_unit, hc]
    norm_num [venda9, taxa_percent_unit, taxa_fixa_unit, imposto_unit]
  refine ⟨hc, by norm_num [venda9, taxa_percent_unit],
    by norm_num [taxa_fixa_unit], by norm_num [venda9, imposto_unit], hl, ?_⟩
  rw [margem_percent, hl]
  norm_num [venda9, pdDiv, pdReplaceNA, pdMul100]

/-! ## C3 -/

/-- C3 (code bug evaluation): on a sale with unit price 0 the `margem_%`
expression divides the negative unit profit (here `-4`) by zero; pandas
float division yields `-inf`, which `.replace([pd.NA, pd.NaT], 0)` leaves
untouched because an infinity is not a missing value, so the reported
margin is `-inf` and not the documented 0 (no fatal error is raised: the
computation is total). -/
theorem margem_divzero_eval :
    margem_percent [] venda_preco_zero = PdFloat.negInf ∧
    PdFloat.negInf ≠ PdFloat.fin 0 := by
  constructor
  · norm_num [margem_percent, pdDiv, pdReplaceNA, pdMul100, lucro_unit,
      custo_medio_unit, get_avg_cost_until, qualifying, taxa_percent_unit,
      taxa_fixa_unit, imposto_unit, venda_preco_zero]
  · decide

/-! ## C5 -/

/-- C5 counterexample: the purchase form checks `not sku` on the raw text
but inserts `sku.strip()`; the whitespace-only SKU `" "` therefore passes
validation, the store is mutated, and the inserted record's product code
is the empty string — an empty product code reaches the store. -/
theorem validation_whitespace_counterexample :
    (submit_compra [] 1 "2024-09-01" " " "Nome" 1 1).1 =
      FormOutcome.accepted ∧
    ((submit_compra [] 1 "2024-09-01" " " "Nome" 1 1).2.map
      (fun r => r.sku)) = [""] :=
  ⟨rfl, rfl⟩

/-- C5 (amended): a submission whose raw product-code field is the empty
string, or whose cost/price input is non-positive, is rejected with a
non-empty human-readable reason and the store is left unchanged; every
record a submission does insert has positive unit cost/price and positive
quantity (the quantity widget clamps to a minimum of 1), so non-positive
numeric fields never reach the store.  However the emptiness check runs on
the raw text while the stored code is stripped, so a whitespace-only
product code passes validation and is stored as the empty string. -/
theorem validation_rejects_amended :
    (∀ (store : List PurchaseRecord) (newId : Nat) (d sku nome : String)
        (custo : ℚ) (qtd : ℤ),
      (sku = "" ∨ custo ≤ 0) →
        isRejectedWithReason (submit_compra store newId d sku nome custo qtd).1 ∧
        (submit_compra store newId d sku nome custo qtd).2 = store)
    ∧ (∀ (store : List PurchaseRecord) (newId : Nat) (d sku nome : String)
        (custo : ℚ) (qtd : ℤ),
        ∀ r ∈ (submit_compra store newId d sku nome custo qtd).2,
          r ∈ store ∨ (0 < r.unit_cost ∧ 0 < r.quantity))
    ∧ (∀ (store : List SaleRecord) (newId : Nat) (d sku nome : String)
        (preco : ℚ) (qtd : ℤ) (market : String),
      (sku = "" ∨ preco ≤ 0) →
        isRejectedWithReason
          (submit_venda store newId d sku nome preco qtd market).1 ∧
        (submit_venda store newId d sku nome preco qtd market).2 = store)
    ∧ (∀ (store : List SaleRecord) (newId : Nat) (d sku nome : String)
        (preco : ℚ) (qtd : ℤ) (market : String),
        ∀ r ∈ (submit_venda store newId d sku nome preco qtd market).2,
          r ∈ store ∨ (0 < r.unit_price ∧ 0 < r.quantity)) := by
  refine ⟨?_, ?_, ?_, ?_⟩
  · intro store newId d sku nome custo qtd h
    by_cases hsku : sku = ""
    · subst hsku
      simp [submit_compra, isRejectedWithReason]
    · have hcu : custo ≤ 0 := h.resolve_left hsku
      have hmax : max custo 0 ≤ 0 := by simp [hcu]
      simp [submit_compra, hsku, hmax, isRejectedWithReason]
  · intro store newId d sku nome custo qtd r hr
    rw [submit_compra] at hr
    split_ifs at hr with h1 h2
    · exact Or.inl hr
    · exact Or.inl hr
    · rcases List.mem_append.mp hr with hl | hl
      · exact Or.inl hl
      · rcases List.mem_singleton.mp hl with rfl
        refine Or.inr ⟨lt_of_not_le h2, ?_⟩
        show (0:ℤ) < max qtd 1
        have : (1:ℤ) ≤ max qtd 1 := le_max_right qtd 1
        omega
  · intro store newId d sku nome preco qtd market h
    by_cases hsku : sku = ""
    · subst hsku
      simp [submit_venda, isRejectedWithReason]
    · have hcu : preco ≤ 0 := h.resolve_left hsku
      have hmax : max preco 0 ≤ 0 := by simp [hcu]
      simp [submit_venda, hsku, hmax, isRejectedWithReason]
  · intro store newId d sku nome preco qtd market r hr
    rw [submit_venda] at hr
    split_ifs at hr with h1 h2
    · exact Or.inl hr
    · exact Or.inl hr
    · rcases List.mem_append.mp hr with hl | hl
      · exact Or.inl hl
      · rcases List.mem_singleton.mp hl with rfl
        refine Or.inr ⟨lt_of_not_le h2, ?_⟩
        show (0:ℤ) < max qtd 1
        have : (1:ℤ) ≤ max qtd 1 := le_max_right qtd 1
        omega

/-- C5 witness: a submission with an empty SKU is rejected with a reason
and the purchase store is untouched; a zero-price sale submission is
rejected likewise. -/
theorem validation_rejects_amended_witness :
    (isRejectedWithReason (submit_compra [] 1 "2024-09-01" "" "Nome" 5 1).1 ∧
      (submit_compra [] 1 "2024-09-01" "" "Nome" 5 1).2 = []) ∧
    (isRejectedWithReason
        (submit_venda [] 1 "2024-09-01" "SKU" "Nome" 0 1 "Shopee").1 ∧
      (submit_venda [] 1 "2024-09-01" "SKU" "Nome" 0 1 "Shopee").2 = []) :=
  ⟨validation_rejects_amended.1 [] 1 "2024-09-01" "" "Nome" 5 1 (Or.inl rfl),
   validation_rejects_amended.2.2.1 [] 1 "2024-09-01" "SKU" "Nome" 0 1
     "Shopee" (Or.inr le_rfl)⟩

end App

namespace App

/-! ## C7 -/

/-- C7: for every stored sale set and date range, a concrete marketplace
filter selects exactly the sales in the range whose marketplace tag equals
the filter, and the `"Todos"` filter selects every sale in the range
regardless of marketplace. -/
theorem marketplace_filter_exact (sales : List SaleRecord)
    (start_iso end_iso f : String) (s : SaleRecord) :
    (f ≠ "Todos" →
      (s ∈ consulta_vendas sales start_iso end_iso f ↔
        s ∈ sales ∧ dateLe start_iso s.date ∧ dateLt s.date end_iso ∧
          s.marketplace = f))
    ∧ (s ∈ consulta_vendas sales start_iso end_iso "Todos" ↔
        s ∈ sales ∧ dateLe start_iso s.date ∧ dateLt s.date end_iso) := by
  constructor
  · intro hf
    rw [consulta_vendas, if_neg hf]
    simp [List.mem_filter, and_assoc]
  · rw [consulta_vendas, if_pos rfl]
    simp [List.mem_filter, and_assoc]

/-- C7 witness: the `"Shopee"` filter on `vendasDemo` keeps the Shopee
sale. -/
theorem marketplace_filter_exact_witness :
    (⟨1, "2024-09-10", "A", "", 50, 1, "Shopee"⟩ : SaleRecord) ∈
      consulta_vendas vendasDemo "2024-09-01" "2024-10-01" "Shopee" :=
  ((marketplace_filter_exact vendasDemo "2024-09-01" "2024-10-01" "Shopee"
      _).1 (by decide)).mpr
    ⟨by simp [vendasDemo], by decide, by decide, rfl⟩

/-! ## C8 -/

/-- C8: deleting by identifier removes every record with that identifier
(and nothing else survives from outside the store), so the record is gone
from all subsequent queries over the store; deleting twice is idempotent;
and deleting an identifier not present in the store is a silent no-op
leaving the store unchanged — for both purchases and sales. -/
theorem delete_semantics (storeP : List PurchaseRecord)
    (storeS : List SaleRecord) (pid sid : Nat) :
    (∀ r ∈ delete_purchase storeP pid, r.id ≠ pid ∧ r ∈ storeP)
    ∧ delete_purchase (delete_purchase storeP pid) pid =
        delete_purchase storeP pid
    ∧ ((∀ r ∈ storeP, r.id ≠ pid) → delete_purchase storeP pid = storeP)
    ∧ (∀ r ∈ delete_sale storeS sid, r.id ≠ sid ∧ r ∈ storeS)
    ∧ delete_sale (delete_sale storeS sid) sid = delete_sale storeS sid
    ∧ ((∀ r ∈ storeS, r.id ≠ sid) → delete_sale storeS sid = storeS) := by
  refine ⟨?_, ?_, ?_, ?_, ?_, ?_⟩
  · intro r hr
    have h := List.mem_filter.mp hr
    exact ⟨by simpa using h.2, h.1⟩
  · exact List.filter_eq_self.mpr (fun a ha => (List.mem_filter.mp ha).2)
  · intro h
    exact List.filter_eq_self.mpr (fun a ha => by simpa using h a ha)
  · intro r hr
    have h := List.mem_filter.mp hr
    exact ⟨by simpa using h.2, h.1⟩
  · exact List.filter_eq_self.mpr (fun a ha => (List.mem_filter.mp ha).2)
  · intro h
    exact List.filter_eq_self.mpr (fun a ha => by simpa using h a ha)

/-- C8 witness: double deletion of id 1 from `comprasDemo` equals single
deletion, and deleting the absent id 99 from `vendasDemo` is a no-op. -/
theorem delete_semantics_witness :
    delete_purchase (delete_purchase comprasDemo 1) 1 =
      delete_purchase comprasDemo 1
    ∧ delete_sale vendasDemo 99 = vendasDemo :=
  ⟨(delete_semantics comprasDemo vendasDemo 1 99).2.1,
   (delete_semantics comprasDemo vendasDemo 1 99).2.2.2.2.2 (by decide)⟩

end App

namespace App

/-! ## C6 -/

/-- A quantity sum taken in `ℚ` equals the cast of the integer sum. -/
theorem qsum_cast (l : List PurchaseRecord) :
    qsum l = (((l.map (fun r => r.quantity)).sum : ℤ) : ℚ) := by
  induction l with
  | nil => simp [qsum]
  | cons a t ih =>
    simp only [qsum, List.map_cons, List.sum_cons] at ih ⊢
    push_cast
    rw [ih]
    push_cast
    ring

/-- If every row costs `c` per unit, the cost sum is `c` times the
quantity sum. -/
theorem csum_const (c : ℚ) :
    ∀ l : List PurchaseRecord, (∀ r ∈ l, r.unit_cost = c) →
      csum l = c * qsum l := by
  intro l
  induction l with
  | nil =>
    intro _
    simp [csum, qsum]
  | cons a t ih =>
    intro h
    have ht := ih (fun r hr => h r (List.mem_cons_of_mem a hr))
    simp only [csum, qsum, List.map_cons, List.sum_cons] at ht ⊢
    rw [h a (List.mem_cons_self a t), ht]
    ring

/-- C6: the weighted average is invariant under zero-quantity additions
and under splitting.  Appending a purchase of quantity 0 to a store whose
average for the code is defined leaves `get_avg_cost_until` unchanged; and
appending one purchase of quantity `q > 0` at unit cost `c` gives the same
result as appending any list of qualifying purchases at unit cost `c`
whose quantities sum to `q`. -/
theorem avg_cost_invariance :
    (∀ (purchases : List PurchaseRecord) (sku ref : String)
        (zp : PurchaseRecord), zp.quantity = 0 →
        (get_avg_cost_until purchases sku ref).isSome →
        get_avg_cost_until (purchases ++ [zp]) sku ref =
          get_avg_cost_until purchases sku ref)
    ∧ (∀ (purchases : List PurchaseRecord) (sku ref : String) (c : ℚ)
        (q : ℤ) (single : PurchaseRecord) (splits : List PurchaseRecord),
        0 < q → single.sku = sku → dateLe single.date ref →
        single.unit_cost = c → single.quantity = q →
        (∀ r ∈ splits, r.sku = sku ∧ dateLe r.date ref ∧ r.unit_cost = c) →
        (splits.map (fun r => r.quantity)).sum = q →
        get_avg_cost_until (purchases ++ [single]) sku ref =
          get_avg_cost_until (purchases ++ splits) sku ref) := by
  constructor
  · intro purchases sku ref zp hq hdef
    have hcond : ¬(qualifying purchases sku ref = [] ∨
        qsum (qualifying purchases sku ref) = 0) := by
      intro h
      rw [get_avg_cost_until, if_pos h] at hdef
      simp at hdef
    push_neg at hcond
    by_cases hzq : zp.sku = sku ∧ dateLe zp.date ref
    · have hq1 : qualifying [zp] sku ref = [zp] := by
        simp [qualifying, List.filter_singleton, hzq]
      rw [get_avg_cost_until, get_avg_cost_until, qualifying_append, hq1,
        qsum_append, csum_append,
        show qsum [zp] = 0 from by simp [qsum, hq],
        show csum [zp] = 0 from by simp [csum, hq],
        add_zero, add_zero, if_neg (by simp [hcond.2]),
        if_neg (by simp [hcond.1, hcond.2])]
    · have hq1 : qualifying [zp] sku ref = [] := by
        simp only [qualifying, List.filter_singleton]
        rw [decide_eq_false hzq]
        rfl
      rw [get_avg_cost_until, get_avg_cost_until, qualifying_append, hq1,
        List.append_nil]
  · intro purchases sku ref c q single splits hq hsku hdate hcost hqty hsp
      hsum
    have hqs : qualifying [single] sku ref = [single] := by
      simp [qualifying, List.filter_singleton, hsku, hdate]
    have hsp' : qualifying splits sku ref = splits :=
      List.filter_eq_self.mpr (fun r hr => by
        simpa using ⟨(hsp r hr).1, (hsp r hr).2.1⟩)
    have hne2 : splits ≠ [] := by
      intro h
      rw [h] at hsum
      simp at hsum
      omega
    have h1 : qsum [single] = (q : ℚ) := by simp [qsum, hqty]
    have h2 : csum [single] = c * q := by
      simp [csum, hcost, hqty]
    have h3 : qsum splits = (q : ℚ) := by rw [qsum_cast, hsum]
    have h4 : csum splits = c * q := by
      rw [csum_const c splits (fun r hr => (hsp r hr).2.2), h3]
    rw [get_avg_cost_until, get_avg_cost_until, qualifying_append,
      qualifying_append, hqs, hsp', qsum_append, csum_append, qsum_append,
      csum_append, h1, h2, h3, h4]
    by_cases h0 : qsum (qualifying purchases sku ref) + (q : ℚ) = 0
    · rw [if_pos (Or.inr h0), if_pos (Or.inr h0)]
    · rw [if_neg (by simp [h0]), if_neg (by simp [h0, hne2])]

/-- C6 witness: a zero-quantity purchase appended to `comprasDemo` leaves
the average unchanged, and one 10-unit purchase at 5.00 averages the same
as two 5-unit purchases at 5.00. -/
theorem avg_cost_invariance_witness :
    get_avg_cost_until (comprasDemo ++ [⟨3, "2024-01-02", "A", "", 7, 0⟩])
        "A" "2024-01-04" =
      get_avg_cost_until comprasDemo "A" "2024-01-04"
    ∧ get_avg_cost_until ([] ++ [⟨1, "2024-01-01", "A", "", 5, 10⟩])
        "A" "2024-01-04" =
      get_avg_cost_until
        ([] ++ [⟨1, "2024-01-01", "A", "", 5, 5⟩,
          ⟨2, "2024-01-01", "A", "", 5, 5⟩]) "A" "2024-01-04" :=
  ⟨avg_cost_invariance.1 comprasDemo "A" "2024-01-04" _ rfl (by
      rw [get_avg_cost_until,
        show qualifying comprasDemo "A" "2024-01-04" = comprasDemo from rfl,
        if_neg]
      · rfl
      · push_neg
        exact ⟨by simp [comprasDemo], by norm_num [comprasDemo, qsum]⟩),
   avg_cost_invariance.2 [] "A" "2024-01-04" 5 10 _ _ (by decide) rfl
     (by decide) rfl rfl (by decide) (by decide)⟩

/-! ## C10 -/

/-- Lower bound: if every quantity is non-negative and every unit cost is
at least `L`, then `L * qsum ≤ csum`. -/
theorem csum_lower (L : ℚ) :
    ∀ l : List PurchaseRecord, (∀ r ∈ l, (0:ℚ) ≤ (r.quantity : ℚ)) →
      (∀ r ∈ l, L ≤ r.unit_cost) → L * qsum l ≤ csum l := by
  intro l
  induction l with
  | nil =>
    intro _ _
    simp [qsum, csum]
  | cons a t ih =>
    intro h0 hL
    have ha0 := h0 a (List.mem_cons_self a t)
    have haL := hL a (List.mem_cons_self a t)
    have ht := ih (fun r hr => h0 r (List.mem_cons_of_mem a hr))
      (fun r hr => hL r (List.mem_cons_of_mem a hr))
    simp only [qsum, csum, List.map_cons, List.sum_cons] at ht ⊢
    rw [mul_add]
    exact add_le_add (mul_le_mul_of_nonneg_right haL ha0) ht

/-- Upper bound: if every quantity is non-negative and every unit cost is
at most `U`, then `csum ≤ U * qsum`. -/
theorem csum_upper (U : ℚ) :
    ∀ l : List PurchaseRecord, (∀ r ∈ l, (0:ℚ) ≤ (r.quantity : ℚ)) →
      (∀ r ∈ l, r.unit_cost ≤ U) → csum l ≤ U * qsum l := by
  intro l
  induction l with
  | nil =>
    intro _ _
    simp [qsum, csum]
  | cons a t ih =>
    intro h0 hU
    have ha0 := h0 a (List.mem_cons_self a t)
    have haU := hU a (List.mem_cons_self a t)
    have ht := ih (fun r hr => h0 r (List.mem_cons_of_mem a hr))
      (fun r hr => hU r (List.mem_cons_of_mem a hr))
    simp only [qsum, csum, List.map_cons, List.sum_cons] at ht ⊢
    rw [mul_add]
    exact add_le_add (mul_le_mul_of_nonneg_right haU ha0) ht

/-- C10 (implicit): whenever `get_avg_cost_until` returns a defined value
over qualifying purchases that all have positive quantity, the value lies
between any lower bound `L` and upper bound `U` of the qualifying unit
costs — in particular between their minimum and maximum, and it is
non-negative when all unit costs are non-negative. -/
theorem avg_cost_bounds (purchases : List PurchaseRecord) (sku ref : String)
    (L U v : ℚ)
    (hq : ∀ r ∈ qualifying purchases sku ref, 0 < r.quantity)
    (hL : ∀ r ∈ qualifying purchases sku ref, L ≤ r.unit_cost)
    (hU : ∀ r ∈ qualifying purchases sku ref, r.unit_cost ≤ U)
    (hv : get_avg_cost_until purchases sku ref = some v) :
    L ≤ v ∧ v ≤ U := by
  rw [get_avg_cost_until] at hv
  split_ifs at hv with h
  simp only [Option.some.injEq] at hv
  push_neg at h
  have hq0 : ∀ r ∈ qualifying purchases sku ref, (0:ℚ) < (r.quantity : ℚ) :=
    fun r hr => by exact_mod_cast hq r hr
  have hpos : 0 < qsum (qualifying purchases sku ref) := by
    rw [qsum]
    refine List.sum_pos _ ?_ ?_
    · intro x hx
      rcases List.mem_map.mp hx with ⟨r, hr, rfl⟩
      exact hq0 r hr
    · simpa using h.1
  have hlow := csum_lower L (qualifying purchases sku ref)
    (fun r hr => le_of_lt (hq0 r hr)) hL
  have hupp := csum_upper U (qualifying purchases sku ref)
    (fun r hr => le_of_lt (hq0 r hr)) hU
  constructor
  · rw [← hv, le_div_iff₀ hpos]
    exact hlow
  · rw [← hv, div_le_iff₀ hpos]
    exact hupp

/-- C10 witness: on `comprasDemo` the average 13/2 lies between the
minimum cost 5 and the maximum cost 8. -/
theorem avg_cost_bounds_witness :
    get_avg_cost_until comprasDemo "A" "2024-01-04" = some (13/2) ∧
    (5:ℚ) ≤ 13/2 ∧ (13/2:ℚ) ≤ 8 := by
  have hv : get_avg_cost_until comprasDemo "A" "2024-01-04" = some (13/2) := by
    rw [get_avg_cost_until,
      show qualifying comprasDemo "A" "2024-01-04" = comprasDemo from rfl,
      if_neg]
    · norm_num [comprasDemo, csum, qsum]
    · push_neg
      exact ⟨by simp [comprasDemo], by norm_num [comprasDemo, qsum]⟩
  have hb := avg_cost_bounds comprasDemo "A" "2024-01-04" 5 8 (13/2)
    (by decide) (by decide) (by decide) hv
  exact ⟨hv, hb.1, hb.2⟩

end App
